import Mathlib

/-!
Verification development for the enhanced-postgresql-mcp server
(`app/mcp/postgresql_tools.py`, `app/mcp/protocol_handler.py`, `app/main.py`).

The Python code is shallowly embedded: dictionaries become association
lists over a small dynamic-value type `PyVal`, raised exceptions become
`Except.error` carrying the exception message, and the database I/O that a
tool performs is abstracted into a `DbOracle` record supplying query
results and the current timestamp. Everything that the code computes
purely (identifier validation, SQL statement screening, limit resolution,
dispatch, the protocol state machine, the JSON-RPC envelope choice) is
modelled concretely from the source.
-/

/-- Whitespace characters removed by the Python str.strip method
(ASCII subset; the embedded strings are all ASCII). -/
def isPySpace (c : Char) : Bool :=
  c == ' ' || c == '\t' || c == '\n' || c == '\r' || c == '\x0b' || c == '\x0c'

/-- List-level model of Python str.strip with no argument. -/
def pyStripList (cs : List Char) : List Char :=
  ((cs.dropWhile isPySpace).reverse.dropWhile isPySpace).reverse

/-- Python str.strip with no argument. -/
def pyStrip (s : String) : String :=
  String.mk (pyStripList s.data)

/-- Python str.rstrip applied with the single character argument ";"
(used by the SQL tool before appending a LIMIT clause). -/
def rstripSemi (s : String) : String :=
  String.mk ((s.data.reverse.dropWhile (fun c => c == ';')).reverse)

/-- Occurrence of `needle` as a contiguous substring, the semantics of
the Python expression `needle in hay` on strings. -/
def containsSub (needle : List Char) : List Char → Bool
  | [] => needle.isEmpty
  | c :: cs => needle.isPrefixOf (c :: cs) || containsSub needle cs

/-- String-level substring test: Python `needle in hay`. -/
def strContains (hay needle : String) : Bool :=
  containsSub needle.data hay.data

/-- Python str.startswith. -/
def pyStartsWith (s pre : String) : Bool :=
  pre.data.isPrefixOf s.data

/-- Python str.upper (the embedded statements are ASCII, where the
Python and the per-character ASCII uppercase agree). -/
def pyToUpper (s : String) : String :=
  String.mk (s.data.map Char.toUpper)

/-- Python slice-and-ellipsis truncation
`s[:n] + "..." if len(s) > n else s` used for query echoes in error
payloads. -/
def pyTrunc (n : Nat) (s : String) : String :=
  if s.length > n then String.mk (s.data.take n) ++ "..." else s

/-- Dynamic values: the subset of Python values the embedded code stores
in its dictionaries. -/
inductive PyVal where
  | pstr (s : String)
  | pint (n : Int)
  | pbool (b : Bool)
  | pnone
  | plist (xs : List PyVal)
  | pobj (kvs : List (String × PyVal))

/-- A Python dict of named arguments (`Dict[str, Any]`), as an
association list with distinct keys. -/
abbrev Args := List (String × PyVal)

/-- One result row: an ordered mapping from column name to value. -/
abbrev Row := List (String × PyVal)

/-- Python dict lookup returning an optional value (`args.get(k)`). -/
def lookupArg (a : Args) (k : String) : Option PyVal :=
  (a.find? (fun kv => kv.fst == k)).map (fun kv => kv.snd)

example : pyStrip "  select 1 ;\n" = "select 1 ;" := by decide
example : rstripSemi "select 1;;" = "select 1" := by decide
example : strContains "SELECT * FROM DELETE_LOG" "DELETE" = true := by decide
example : strContains "SELECT 1" "DELETE" = false := by decide
example : pyStartsWith "SELECT 1" "SELECT" = true := by decide
example : pyTrunc 3 "abcdef" = "abc..." := by decide

/-! ## Identifier validation (postgresql_tools.py, _validate_identifier) -/

/-- The character class of the validation pattern: a-z, A-Z, 0-9 or the
underscore. -/
def isIdentChar (c : Char) : Bool :=
  c.isAlphanum || c == '_'

/-- Result of the Python test
`re.match(r'^[a-zA-Z0-9_]+$', s) is not None`. In Python the dollar
anchor also matches just before a newline that ends the string, so the
pattern accepts both a non-empty run of identifier characters and such a
run followed by one final newline. -/
def reMatchIdentPattern (s : String) : Bool :=
  let cs := s.data
  (!cs.isEmpty && cs.all isIdentChar) ||
  (cs.getLast? == some '\n' && !cs.dropLast.isEmpty && cs.dropLast.all isIdentChar)

/-- Model of `_validate_identifier(identifier, name)`
(postgresql_tools.py lines 273-282). A raised ValueError becomes
`Except.error` carrying the exception message. -/
def validate_identifier (identifier : String) (name : String) : Except String Unit :=
  if identifier.isEmpty then
    Except.error (name ++ " cannot be empty")
  else if !(reMatchIdentPattern identifier) then
    Except.error (name ++ " contains invalid characters. Only letters, numbers, and underscores allowed.")
  else if identifier.length > 63 then
    Except.error (name ++ " too long (max 63 characters)")
  else
    Except.ok ()

example : validate_identifier "users_2024" "table" = Except.ok () := rfl
example : validate_identifier "" "schema" = Except.error "schema cannot be empty" := rfl
example : validate_identifier "a b" "table" =
    Except.error "table contains invalid characters. Only letters, numbers, and underscores allowed." :=
  rfl
example : validate_identifier "a\n" "table" = Except.ok () := rfl

/-! ## The execute_sql_query statement screen
(postgresql_tools.py, _execute_sql_query lines 733-762) -/

/-- The denylist scanned over the uppercased statement
(postgresql_tools.py line 751), in source order. -/
def dangerous_keywords : List String :=
  ["DROP", "DELETE", "UPDATE", "INSERT", "ALTER", "TRUNCATE", "CREATE"]

/-- Resolution of the limit argument of execute_sql_query
(`min(args.get("limit", 50), 100)`, line 737). -/
def sqlResolvedLimit (l : Option Int) : Int :=
  min (l.getD 50) 100

/-- Outcome of the pure validation-and-rewrite phase of
_execute_sql_query: either an exception propagates out of the handler
(`raised`), or the handler returns an error dictionary of its own
(`rejected`), or a final statement is sent to the database
(`execute`). -/
inductive SqlPrep where
  | raised (msg : String)
  | rejected (payload : List (String × PyVal))
  | execute (finalQuery : String)

/-- True when the statement never reaches the database. -/
def SqlPrep.isBlocked : SqlPrep → Bool
  | .execute _ => false
  | _ => true

/-- The validation-and-rewrite phase of `_execute_sql_query`
(lines 735-762), with the limit already resolved. Mirrors the source
order: strip the statement, validate the database identifier (a raise),
require an uppercased-and-stripped SELECT start (a returned error dict),
scan the denylist (a returned error dict), then append a LIMIT clause to
the semicolon-right-stripped statement unless the substring LIMIT is
already present. -/
def execute_sql_query_prepare (database : String) (query0 : String) (limit : Int) : SqlPrep :=
  let query := pyStrip query0
  match validate_identifier database "database" with
  | Except.error m => SqlPrep.raised m
  | Except.ok _ =>
    let query_upper := pyStrip (pyToUpper query)
    if !(pyStartsWith query_upper "SELECT") then
      SqlPrep.rejected
        [("error", PyVal.pstr "Only SELECT queries are allowed for safety reasons"),
         ("database", PyVal.pstr database),
         ("query", PyVal.pstr (pyTrunc 100 query))]
    else
      match dangerous_keywords.find? (fun k => strContains query_upper k) with
      | some k =>
        SqlPrep.rejected
          [("error", PyVal.pstr ("Query contains potentially dangerous keyword: " ++ k)),
           ("database", PyVal.pstr database),
           ("query", PyVal.pstr (pyTrunc 100 query))]
      | none =>
        SqlPrep.execute
          (if strContains query_upper "LIMIT" then query
           else rstripSemi query ++ " LIMIT " ++ toString limit)

example : execute_sql_query_prepare "mydb" "select 1" 50 =
    SqlPrep.execute "select 1 LIMIT 50" := rfl
example : execute_sql_query_prepare "mydb" "SELECT * FROM t LIMIT 5" 50 =
    SqlPrep.execute "SELECT * FROM t LIMIT 5" := rfl
example : (execute_sql_query_prepare "mydb" "SELECT * FROM delete_log" 50).isBlocked = true := rfl
example : (execute_sql_query_prepare "mydb" "DROP TABLE t" 50).isBlocked = true := rfl

/-! ## Tool registry (postgresql_tools.py, _register_tools lines 27-263) -/

/-- One property of an inputSchema: a primitive type, a description and
optional numeric bounds and default. -/
structure PropSchema where
  type : String
  description : String
  minimum : Option Int
  maximum : Option Int
  default : Option PyVal

/-- An inputSchema: the declared type tag, ordered named properties, the
required subset (the empty list models a source dictionary without a
required key) and the additionalProperties flag. -/
structure InputSchema where
  type : String
  properties : List (String × PropSchema)
  required : List String
  additionalProperties : Bool

/-- A registered tool: name, description, inputSchema. -/
structure ToolDef where
  name : String
  description : String
  inputSchema : InputSchema

/-- A string-typed property without bounds or default. -/
def strProp (d : String) : PropSchema := ⟨"string", d, none, none, none⟩

/-- A string-typed property with a declared default. -/
def strPropDefault (d df : String) : PropSchema := ⟨"string", d, none, none, some (PyVal.pstr df)⟩

/-- An integer-typed property with minimum, maximum and default. -/
def intProp (d : String) (mn mx df : Int) : PropSchema :=
  ⟨"integer", d, some mn, some mx, some (PyVal.pint df)⟩

/-- The schema-name property shared by several tools. -/
def schemaProp : PropSchema :=
  strPropDefault "Schema name (optional, defaults to \x27public\x27)" "public"

/-- The inputSchema of preview_table_data (lines 157-183). -/
def preview_table_data_schema : InputSchema :=
  ⟨"object",
   [("database", strProp "Name of the database"),
    ("table", strProp "Name of the table"),
    ("schema", schemaProp),
    ("limit", intProp "Number of rows to return (max 10)" 1 10 5)],
   ["database", "table"], false⟩

/-- The inputSchema of execute_sql_query (lines 241-262). -/
def execute_sql_query_schema : InputSchema :=
  ⟨"object",
   [("database", strProp "Name of the database to execute query against"),
    ("query", strProp "SQL query to execute (SELECT statements only for safety)"),
    ("limit", intProp "Maximum number of rows to return (max 100)" 1 100 50)],
   ["database", "query"], false⟩

/-- The fixed catalog of 11 tools, in registration order, with the
declared descriptions and input schemas. -/
def tools : List ToolDef :=
  [⟨"get_databases", "List all PostgreSQL databases with size information",
    ⟨"object", [], [], false⟩⟩,
   ⟨"get_tables",
    "List all tables in a specific database and schema with size and row count information",
    ⟨"object",
     [("database", strProp "Name of the database to query (optional, uses current connection if not provided)"),
      ("schema", schemaProp)],
     [], false⟩⟩,
   ⟨"describe_table",
    "Get detailed information about table structure, columns, and constraints",
    ⟨"object",
     [("database", strProp "Name of the database"),
      ("table", strProp "Name of the table to describe"),
      ("schema", schemaProp)],
     ["database", "table"], false⟩⟩,
   ⟨"get_indexes", "List all indexes for a specific table",
    ⟨"object",
     [("database", strProp "Name of the database"),
      ("table", strProp "Name of the table"),
      ("schema", schemaProp)],
     ["database", "table"], false⟩⟩,
   ⟨"get_table_stats",
    "Get comprehensive statistics for a table including size, row counts, and activity",
    ⟨"object",
     [("database", strProp "Name of the database"),
      ("table", strProp "Name of the table"),
      ("schema", schemaProp)],
     ["database", "table"], false⟩⟩,
   ⟨"get_database_size", "Get size information for databases",
    ⟨"object",
     [("database", strProp "Name of specific database (optional, shows all if not provided)")],
     [], false⟩⟩,
   ⟨"preview_table_data",
    "Preview first few rows of a table (limited to 10 rows for safety)",
    preview_table_data_schema⟩,
   ⟨"count_table_rows", "Get accurate row count for a table",
    ⟨"object",
     [("database", strProp "Name of the database"),
      ("table", strProp "Name of the table"),
      ("schema", schemaProp)],
     ["database", "table"], false⟩⟩,
   ⟨"get_active_connections",
    "Show current active database connections (limited to 50 for safety)",
    ⟨"object",
     [("database", strProp "Filter by specific database (optional)")],
     [], false⟩⟩,
   ⟨"check_database_health",
    "Perform basic health check of the PostgreSQL database",
    ⟨"object", [], [], false⟩⟩,
   ⟨"execute_sql_query",
    "Execute a custom SQL query (read-only operations only, limited to 100 rows for safety)",
    execute_sql_query_schema⟩]

/-- Modelled from the spec: satisfaction of a declared inputSchema as
the specification describes it (required fields present, primitive type
match, numeric minimum and maximum, additionalProperties). The source
never evaluates an inputSchema against the supplied arguments; this
definition exists only so that the absence of that check can be
stated. -/
def typeOk (t : String) (v : PyVal) : Bool :=
  match t, v with
  | "string", PyVal.pstr _ => true
  | "integer", PyVal.pint _ => true
  | "boolean", PyVal.pbool _ => true
  | _, _ => false

/-- Modelled from the spec: the numeric bound part of schema
satisfaction. -/
def boundsOk (ps : PropSchema) (v : PyVal) : Bool :=
  match v with
  | PyVal.pint n =>
      (match ps.minimum with | some m => decide (m ≤ n) | none => true) &&
      (match ps.maximum with | some m => decide (n ≤ m) | none => true)
  | _ => true

/-- Modelled from the spec: whole-schema satisfaction of an argument
mapping. -/
def schemaAccepts (sch : InputSchema) (args : Args) : Bool :=
  sch.required.all (fun k => (lookupArg args k).isSome) &&
  args.all (fun kv =>
    match sch.properties.find? (fun pr => pr.fst == kv.fst) with
    | some pr => typeOk pr.snd.type kv.snd && boundsOk pr.snd kv.snd
    | none => sch.additionalProperties)

/-! ## Database oracle

The tool handlers suspend on database I/O. The embedding abstracts those
suspension points into an oracle: `runQuery` models
DatabaseManager.execute_query / execute_query_on_database (target
database, SQL text, bound parameters, returning rows or the message of a
raised driver exception), `runOther` models the entire body of the nine
introspection handlers whose internals no claim touches, and `now`
models datetime.now timestamps. -/
structure DbOracle where
  now : String
  runQuery : Option String → String → List PyVal → Except String (List Row)
  runOther : String → Args → Except String PyVal

/-- An oracle whose every query succeeds with a fixed row set
(timestamp "T"); used to evaluate the pure control paths on concrete
inputs. -/
def constOracle (rows : List Row) : DbOracle :=
  ⟨"T", fun _ _ _ => Except.ok rows, fun _ _ => Except.ok (PyVal.pobj [])⟩

/-! ## Argument extraction helpers -/

/-- Python `args[k]` for a string-valued argument: a missing key raises
KeyError(k) (whose str is the quoted key); a non-string value would make
the downstream code raise a type error, whose exact message is not
load-bearing. -/
def getRequiredStr (a : Args) (k : String) : Except String String :=
  match lookupArg a k with
  | none => Except.error ("\x27" ++ k ++ "\x27")
  | some (PyVal.pstr s) => Except.ok s
  | some _ => Except.error "expected string or bytes-like object"

/-- Python `args.get(k, d)` for a string-valued argument. -/
def getStrDefault (a : Args) (k d : String) : Except String String :=
  match lookupArg a k with
  | none => Except.ok d
  | some (PyVal.pstr s) => Except.ok s
  | some _ => Except.error "expected string or bytes-like object"

/-- Python `args.get(k)` for an integer-valued argument; a non-integer
would make the min() call raise TypeError. -/
def getOptInt (a : Args) (k : String) : Except String (Option Int) :=
  match lookupArg a k with
  | none => Except.ok none
  | some (PyVal.pint n) => Except.ok (some n)
  | some _ => Except.error "unsupported operand type for min"

/-! ## Tool handlers and dispatch -/

/-- Model of `_execute_sql_query(args)` (lines 733-785): extract the
arguments, resolve the limit, run the pure screen, and on the execute
path consult the oracle, shaping the success row set or catching the
driver failure into a returned error dictionary. The
execution_time_seconds value is timing noise modelled as 0. -/
def run_execute_sql_query (o : DbOracle) (args : Args) : Except String PyVal := do
  let database ← getRequiredStr args "database"
  let query0 ← getRequiredStr args "query"
  let lopt ← getOptInt args "limit"
  let limit := sqlResolvedLimit lopt
  match execute_sql_query_prepare database query0 limit with
  | SqlPrep.raised m => Except.error m
  | SqlPrep.rejected p => pure (PyVal.pobj p)
  | SqlPrep.execute fq =>
    match o.runQuery (some database) fq [] with
    | Except.ok rows =>
      pure (PyVal.pobj
        [("database", PyVal.pstr database),
         ("query", PyVal.pstr fq),
         ("results", PyVal.plist (rows.map PyVal.pobj)),
         ("row_count", PyVal.pint rows.length),
         ("execution_time_seconds", PyVal.pint 0),
         ("timestamp", PyVal.pstr o.now)])
    | Except.error e =>
      pure (PyVal.pobj
        [("error", PyVal.pstr ("Query execution failed: " ++ e)),
         ("database", PyVal.pstr database),
         ("query", PyVal.pstr (pyTrunc 200 fq)),
         ("timestamp", PyVal.pstr o.now)])

/-- Resolution of the preview_table_data limit argument
(`min(args.get("limit", 5), 10)`, line 595). -/
def previewResolvedLimit (l : Option Int) : Int :=
  min (l.getD 5) 10

/-- Model of `_preview_table_data(args)` (lines 590-622): extract the
arguments, resolve the limit, validate the three identifiers (raises
propagate), build the SELECT with interpolated schema and table, and
either shape the rows or catch the driver failure into a returned error
dictionary (which carries no timestamp). -/
def run_preview_table_data (o : DbOracle) (args : Args) : Except String PyVal := do
  let database ← getRequiredStr args "database"
  let table ← getRequiredStr args "table"
  let schema ← getStrDefault args "schema" "public"
  let lopt ← getOptInt args "limit"
  let limit := previewResolvedLimit lopt
  validate_identifier database "database"
  validate_identifier table "table"
  validate_identifier schema "schema"
  let query := "SELECT * FROM " ++ schema ++ "." ++ table ++ " LIMIT $1"
  match o.runQuery (some database) query [PyVal.pint limit] with
  | Except.ok rows =>
    pure (PyVal.pobj
      [("database", PyVal.pstr database),
       ("schema", PyVal.pstr schema),
       ("table", PyVal.pstr table),
       ("rows_returned", PyVal.pint rows.length),
       ("limit_applied", PyVal.pint limit),
       ("data", PyVal.plist (rows.map PyVal.pobj)),
       ("timestamp", PyVal.pstr o.now)])
  | Except.error e =>
    pure (PyVal.pobj
      [("error", PyVal.pstr ("Failed to preview table data: " ++ e)),
       ("database", PyVal.pstr database),
       ("schema", PyVal.pstr schema),
       ("table", PyVal.pstr table)])

/-- The routing chain inside execute_tool (lines 294-317). The nine
handlers whose bodies are pure database introspection are modelled
through the oracle; the two handlers with claim-relevant pure logic are
modelled concretely. The final arm mirrors the unreachable
"not implemented" raise. -/
def dispatchTool (o : DbOracle) (tool_name : String) (args : Args) : Except String PyVal :=
  if tool_name = "get_databases" then o.runOther tool_name args
  else if tool_name = "get_tables" then o.runOther tool_name args
  else if tool_name = "describe_table" then o.runOther tool_name args
  else if tool_name = "get_indexes" then o.runOther tool_name args
  else if tool_name = "get_table_stats" then o.runOther tool_name args
  else if tool_name = "get_database_size" then o.runOther tool_name args
  else if tool_name = "preview_table_data" then run_preview_table_data o args
  else if tool_name = "count_table_rows" then o.runOther tool_name args
  else if tool_name = "get_active_connections" then o.runOther tool_name args
  else if tool_name = "check_database_health" then o.runOther tool_name args
  else if tool_name = "execute_sql_query" then run_execute_sql_query o args
  else Except.error ("Tool " ++ tool_name ++ " not implemented")

/-- Model of `execute_tool(tool_name, arguments)` (lines 284-329). An
unknown tool name raises before the try block; inside the try block any
exception is caught and returned as the error-tool-timestamp payload,
itself a successful return. The json.dumps serialization of the returned
dictionary is not modelled; payloads stay structured. -/
def execute_tool (o : DbOracle) (tool_name : String) (args : Args) : Except String PyVal :=
  if !((tools.map ToolDef.name).contains tool_name) then
    Except.error ("Unknown tool: " ++ tool_name)
  else
    match dispatchTool o tool_name args with
    | Except.ok result => Except.ok result
    | Except.error e =>
      Except.ok (PyVal.pobj
        [("error", PyVal.pstr e),
         ("tool", PyVal.pstr tool_name),
         ("timestamp", PyVal.pstr o.now)])

example : execute_tool (constOracle []) "bogus" [] = Except.error "Unknown tool: bogus" := rfl
example : execute_tool (constOracle []) "preview_table_data"
    [("database", PyVal.pstr "mydb"), ("table", PyVal.pstr "users"), ("limit", PyVal.pint 999)] =
    Except.ok (PyVal.pobj
      [("database", PyVal.pstr "mydb"),
       ("schema", PyVal.pstr "public"),
       ("table", PyVal.pstr "users"),
       ("rows_returned", PyVal.pint 0),
       ("limit_applied", PyVal.pint 10),
       ("data", PyVal.plist []),
       ("timestamp", PyVal.pstr "T")]) := rfl

/-! ## Protocol session handler (protocol_handler.py) and endpoint
(main.py) -/

/-- The mutable session state of MCPProtocolHandler: the initialized
flag and the recorded clientInfo (None before the first initialize). The
constant protocol_version and server_info fields are modelled as
standalone constants. -/
structure MCPState where
  initialized : Bool
  client_info : Option PyVal

/-- The server protocol version constant. -/
def server_protocol_version : String := "2024-11-05"

/-- The request params dictionary, restricted to the keys the handler
reads: protocolVersion and clientInfo (initialize), name and arguments
(tools/call), level (logging/setLevel). -/
structure MCPParams where
  protocolVersion : Option String
  clientInfo : Option PyVal
  name : Option String
  arguments : Option Args
  level : Option String

/-- Empty params dictionary. -/
def noParams : MCPParams := ⟨none, none, none, none, none⟩

/-- The result value of a handled method. The initialize response is a
fixed object (protocolVersion, serverInfo, the four capability keys),
modelled as one constructor; tools/call wraps the executed tool payload
into its single text content block. -/
inductive MCPResult where
  | initResult
  | emptyObj
  | toolsList (ts : List ToolDef)
  | toolsCall (payload : PyVal)
  | pong (timestamp : String)
  | promptsList

/-- The session-not-initialized ValueError message shared by tools/list
and tools/call. -/
def notInitMsg : String := "Session not initialized. Call \x27initialize\x27 first."

/-- Model of `MCPProtocolHandler.handle_request` (protocol_handler.py
lines 26-155): the method routing chain and the per-method handlers. A
raised ValueError becomes `Except.error` with the exception message; the
returned state is the session state after the call (only initialize
mutates it, and only after its parameter check). The advisory
protocol-version comparison only logs, so it does not appear. -/
def handle_request (o : DbOracle) (s : MCPState) (method : String) (p : MCPParams) :
    MCPState × Except String MCPResult :=
  if method = "initialize" then
    match p.protocolVersion with
    | none => (s, Except.error "Missing required parameter: protocolVersion")
    | some _ =>
      (⟨true, some (p.clientInfo.getD (PyVal.pobj []))⟩, Except.ok MCPResult.initResult)
  else if method = "initialized" then
    (s, Except.ok MCPResult.emptyObj)
  else if method = "tools/list" then
    if s.initialized then
      (s, Except.ok (MCPResult.toolsList tools))
    else
      (s, Except.error notInitMsg)
  else if method = "tools/call" then
    if s.initialized then
      match p.name with
      | none => (s, Except.error "Missing required parameter: name")
      | some tool_name =>
        match execute_tool o tool_name (p.arguments.getD []) with
        | Except.ok payload => (s, Except.ok (MCPResult.toolsCall payload))
        | Except.error e => (s, Except.error e)
    else
      (s, Except.error notInitMsg)
  else if method = "ping" then
    (s, Except.ok (MCPResult.pong o.now))
  else if method = "logging/setLevel" then
    (s, Except.ok MCPResult.emptyObj)
  else if method = "notifications/initialized" then
    (s, Except.ok MCPResult.emptyObj)
  else if method = "prompts/list" then
    (s, Except.ok MCPResult.promptsList)
  else
    (s, Except.error ("Unknown method: " ++ method))

/-- A JSON-RPC response envelope: success with a result, or an error
object carrying code, message and the data.details string. -/
inductive Envelope where
  | success (result : MCPResult)
  | protocolError (code : Int) (message : String) (details : String)

/-- Model of the `/mcp` endpoint (main.py lines 99-143): route the
request through the protocol handler; a success becomes the success
envelope, a raised ValueError becomes the -32602 Invalid params
envelope. Every exception the embedded handler raises is a Python
ValueError, so the -32603 except-Exception branch of the source is not
reachable from the handler model and has no arm here. -/
def mcp_endpoint (o : DbOracle) (s : MCPState) (method : String) (p : MCPParams) :
    MCPState × Envelope :=
  match handle_request o s method p with
  | (s2, Except.ok r) => (s2, Envelope.success r)
  | (s2, Except.error e) => (s2, Envelope.protocolError (-32602) "Invalid params" e)

example : (handle_request (constOracle []) ⟨false, none⟩ "tools/list" noParams).snd =
    Except.error notInitMsg := rfl
example : (handle_request (constOracle []) ⟨true, none⟩ "tools/list" noParams).snd =
    Except.ok (MCPResult.toolsList tools) := rfl
example : mcp_endpoint (constOracle []) ⟨true, none⟩ "resources/list" noParams =
    (⟨true, none⟩, Envelope.protocolError (-32602) "Invalid params" "Unknown method: resources/list") := rfl
example : (handle_request (constOracle []) ⟨false, none⟩ "initialize"
    ⟨some "2024-11-05", none, none, none, none⟩).fst.initialized = true := rfl

/-! ## Claims -/

/-- C1: the claim says the Identifier Validator accepts exactly the
non-empty strings of at most 63 characters drawn from A-Z, a-z, 0-9 and
underscore, and rejects every string containing any other character,
including a trailing newline. The code disagrees: re.match with a
dollar anchor matches just before one final newline, so the identifier
"a\n" - which contains the non-identifier character LF - is accepted by
_validate_identifier. -/
theorem c1_trailing_newline_accepted :
    validate_identifier "a\n" "database" = Except.ok () ∧
    isIdentChar '\n' = false ∧ '\n' ∈ "a\n".data :=
  ⟨rfl, rfl, by decide⟩

/-- C2: every statement whose uppercased (stripped) text contains one of
the seven denylist substrings is blocked before any query executes -
either the database identifier raise or one of the two returned error
dictionaries fires - and in particular the legitimate read
SELECT * FROM delete_log comes back from execute_tool as the
dangerous-keyword error dictionary (a tool-level error, the call itself
succeeding). -/
theorem c2_dangerous_keyword_rejected :
    (∀ (database query : String) (limit : Int),
      (dangerous_keywords.any (fun k =>
        strContains (pyStrip (pyToUpper (pyStrip query))) k)) = true →
      (execute_sql_query_prepare database query limit).isBlocked = true) ∧
    execute_tool (constOracle []) "execute_sql_query"
        [("database", PyVal.pstr "mydb"), ("query", PyVal.pstr "SELECT * FROM delete_log")] =
      Except.ok (PyVal.pobj
        [("error", PyVal.pstr "Query contains potentially dangerous keyword: DELETE"),
         ("database", PyVal.pstr "mydb"),
         ("query", PyVal.pstr "SELECT * FROM delete_log")]) := by
  constructor
  · intro database query limit h
    unfold execute_sql_query_prepare
    cases hv : validate_identifier database "database" with
    | error m => simp [SqlPrep.isBlocked]
    | ok u =>
      simp only []
      by_cases hs : pyStartsWith (pyStrip (pyToUpper (pyStrip query))) "SELECT"
      · simp only [hs, Bool.not_true, Bool.false_eq_true, if_false]
        cases hfind : dangerous_keywords.find? (fun k =>
            strContains (pyStrip (pyToUpper (pyStrip query))) k) with
        | some k => simp [SqlPrep.isBlocked]
        | none =>
          exfalso
          rw [List.any_eq_true] at h
          obtain ⟨k, hk, hpk⟩ := h
          exact (List.find?_eq_none.mp hfind k hk) hpk
      · simp [hs, SqlPrep.isBlocked]
  · rfl

/-- C2 witness: the concrete statement SELECT * FROM delete_log
satisfies the containment hypothesis and is blocked. -/
theorem c2_witness :
    (dangerous_keywords.any (fun k =>
      strContains (pyStrip (pyToUpper (pyStrip "SELECT * FROM delete_log"))) k)) = true ∧
    (execute_sql_query_prepare "mydb" "SELECT * FROM delete_log" 50).isBlocked = true :=
  ⟨rfl, c2_dangerous_keyword_rejected.1 "mydb" "SELECT * FROM delete_log" 50 rfl⟩

/-- C3 counterexample: for the accepted statement "select 1;" the
executed statement is "select 1 LIMIT 50", which is not the original
statement with " LIMIT 50" appended - the trailing semicolon is stripped
first. -/
theorem c3_counterexample :
    execute_sql_query_prepare "mydb" "select 1;" 50 = SqlPrep.execute "select 1 LIMIT 50" ∧
    run_execute_sql_query (constOracle [])
        [("database", PyVal.pstr "mydb"), ("query", PyVal.pstr "select 1;")] =
      Except.ok (PyVal.pobj
        [("database", PyVal.pstr "mydb"),
         ("query", PyVal.pstr "select 1 LIMIT 50"),
         ("results", PyVal.plist []),
         ("row_count", PyVal.pint 0),
         ("execution_time_seconds", PyVal.pint 0),
         ("timestamp", PyVal.pstr "T")]) ∧
    "select 1 LIMIT 50" ≠ "select 1;" ++ " LIMIT 50" :=
  ⟨rfl, rfl, by decide⟩

/-- C3 amended: for every accepted statement, if the uppercased text
lacks the substring LIMIT the executed statement is the stripped
original with trailing semicolons removed and a LIMIT clause for the
resolved limit appended; if LIMIT is present the stripped original is
executed unchanged. The two concrete examples of the claim hold:
"select 1" with the default limit becomes "select 1 LIMIT 50", and
"SELECT * FROM t LIMIT 5" is executed unchanged. -/
theorem c3_limit_injection_amended :
    (∀ (database query : String) (limit : Int) (fq : String),
      execute_sql_query_prepare database query limit = SqlPrep.execute fq →
      fq = (if strContains (pyStrip (pyToUpper (pyStrip query))) "LIMIT" then pyStrip query
            else rstripSemi (pyStrip query) ++ " LIMIT " ++ toString limit)) ∧
    execute_sql_query_prepare "mydb" "select 1" (sqlResolvedLimit none) =
      SqlPrep.execute "select 1 LIMIT 50" ∧
    execute_sql_query_prepare "mydb" "SELECT * FROM t LIMIT 5" (sqlResolvedLimit none) =
      SqlPrep.execute "SELECT * FROM t LIMIT 5" := by
  refine ⟨?_, rfl, rfl⟩
  intro database query limit fq h
  unfold execute_sql_query_prepare at h
  cases hv : validate_identifier database "database" with
  | error m => rw [hv] at h; simp at h
  | ok u =>
    rw [hv] at h
    simp only [] at h
    by_cases hs : pyStartsWith (pyStrip (pyToUpper (pyStrip query))) "SELECT"
    · simp only [hs, Bool.not_true, Bool.false_eq_true, if_false] at h
      cases hfind : dangerous_keywords.find? (fun k =>
          strContains (pyStrip (pyToUpper (pyStrip query))) k) with
      | some k => rw [hfind] at h; simp at h
      | none =>
        rw [hfind] at h
        injection h with h2
        exact h2.symm
    · simp [hs] at h

/-- C3 witness: the amended rewrite property instantiated at the
accepted statement "select 1;" with limit 50. -/
theorem c3_witness :
    execute_sql_query_prepare "mydb" "select 1;" 50 = SqlPrep.execute "select 1 LIMIT 50" ∧
    "select 1 LIMIT 50" =
      (if strContains (pyStrip (pyToUpper (pyStrip "select 1;"))) "LIMIT" then pyStrip "select 1;"
       else rstripSemi (pyStrip "select 1;") ++ " LIMIT " ++ toString (50 : Int)) :=
  ⟨rfl, c3_limit_injection_amended.1 "mydb" "select 1;" 50 "select 1 LIMIT 50" rfl⟩

/-- Helper: for a registered tool name, execute_tool always returns a
successful payload - its try block catches every handler exception and
returns the error dictionary instead. -/
theorem execute_tool_known_isOk (o : DbOracle) (nm : String) (args : Args)
    (hc : (tools.map ToolDef.name).contains nm = true) :
    ∃ v, execute_tool o nm args = Except.ok v := by
  unfold execute_tool
  rw [hc]
  simp only [Bool.not_true, Bool.false_eq_true, if_false]
  cases hd : dispatchTool o nm args with
  | ok v => exact ⟨v, rfl⟩
  | error e => exact ⟨_, rfl⟩

/-- C4: on an uninitialized session both tools/list and tools/call fail
with the session-not-initialized ValueError - surfaced at the endpoint
as a protocol-level error envelope - for any params (in particular any
tool name), the state unchanged and the result independent of the
oracle, so no tool executes; once the session is initialized, tools/list
returns the catalog and tools/call with any registered tool name
executes the tool and succeeds. -/
theorem c4_session_gate :
    (∀ (o : DbOracle) (s : MCPState) (p : MCPParams), s.initialized = false →
      handle_request o s "tools/list" p = (s, Except.error notInitMsg) ∧
      handle_request o s "tools/call" p = (s, Except.error notInitMsg) ∧
      mcp_endpoint o s "tools/call" p =
        (s, Envelope.protocolError (-32602) "Invalid params" notInitMsg)) ∧
    (∀ (o : DbOracle) (s : MCPState) (p : MCPParams), s.initialized = true →
      (handle_request o s "tools/list" p).snd = Except.ok (MCPResult.toolsList tools) ∧
      (∀ nm, p.name = some nm → (tools.map ToolDef.name).contains nm = true →
        ∃ payload, (handle_request o s "tools/call" p).snd =
          Except.ok (MCPResult.toolsCall payload))) := by
  constructor
  · intro o s p h
    refine ⟨?_, ?_, ?_⟩ <;> simp [handle_request, mcp_endpoint, h]
  · intro o s p h
    constructor
    · simp [handle_request, h]
    · intro nm hnm hc
      obtain ⟨v, hv⟩ := execute_tool_known_isOk o nm (p.arguments.getD []) hc
      exact ⟨v, by simp [handle_request, h, hnm, hv]⟩

/-- C4 witness: with the registered tool get_databases named in the
params, the uninitialized session is refused and the initialized session
executes the call. -/
theorem c4_witness :
    handle_request (constOracle []) ⟨false, none⟩ "tools/call"
        ⟨none, none, some "get_databases", none, none⟩ =
      (⟨false, none⟩, Except.error notInitMsg) ∧
    ∃ payload, (handle_request (constOracle []) ⟨true, none⟩ "tools/call"
        ⟨none, none, some "get_databases", none, none⟩).snd =
      Except.ok (MCPResult.toolsCall payload) :=
  ⟨(c4_session_gate.1 (constOracle []) ⟨false, none⟩
      ⟨none, none, some "get_databases", none, none⟩ rfl).2.1,
   (c4_session_gate.2 (constOracle []) ⟨true, none⟩
      ⟨none, none, some "get_databases", none, none⟩ rfl).2 "get_databases" rfl rfl⟩

/-- C5 counterexample: the disallowed statement DELETE FROM t is a
failure inside the execute_sql_query handler, but the tool-level payload
execute_tool returns for it contains only error, database and query -
neither the tool name nor a timestamp - because the handler returns its
own error dictionary instead of raising. -/
theorem c5_counterexample :
    execute_tool (constOracle []) "execute_sql_query"
        [("database", PyVal.pstr "mydb"), ("query", PyVal.pstr "DELETE FROM t")] =
      Except.ok (PyVal.pobj
        [("error", PyVal.pstr "Only SELECT queries are allowed for safety reasons"),
         ("database", PyVal.pstr "mydb"),
         ("query", PyVal.pstr "DELETE FROM t")]) ∧
    lookupArg
        [("error", PyVal.pstr "Only SELECT queries are allowed for safety reasons"),
         ("database", PyVal.pstr "mydb"),
         ("query", PyVal.pstr "DELETE FROM t")] "tool" = none ∧
    lookupArg
        [("error", PyVal.pstr "Only SELECT queries are allowed for safety reasons"),
         ("database", PyVal.pstr "mydb"),
         ("query", PyVal.pstr "DELETE FROM t")] "timestamp" = none :=
  ⟨rfl, rfl, rfl⟩

/-- C5 amended: failures that propagate out of a tool handler are
caught by execute_tool and returned as a payload carrying the error
message, the tool name and a timestamp; but a disallowed statement is
rejected inside the execute_sql_query handler with a payload carrying an
error message and no tool name and no timestamp; in every case a
tools/call of a registered tool still succeeds at the JSON-RPC layer. -/
theorem c5_error_channel_amended :
    (∀ (o : DbOracle) (nm : String) (args : Args) (e : String),
      (tools.map ToolDef.name).contains nm = true →
      dispatchTool o nm args = Except.error e →
      execute_tool o nm args = Except.ok (PyVal.pobj
        [("error", PyVal.pstr e), ("tool", PyVal.pstr nm), ("timestamp", PyVal.pstr o.now)])) ∧
    (∀ (database query : String) (limit : Int) (p : List (String × PyVal)),
      execute_sql_query_prepare database query limit = SqlPrep.rejected p →
      (lookupArg p "error").isSome = true ∧ lookupArg p "tool" = none ∧
      lookupArg p "timestamp" = none) ∧
    (∀ (o : DbOracle) (s : MCPState) (p : MCPParams) (nm : String),
      s.initialized = true → p.name = some nm →
      (tools.map ToolDef.name).contains nm = true →
      ∃ r, mcp_endpoint o s "tools/call" p = (s, Envelope.success r)) := by
  refine ⟨?_, ?_, ?_⟩
  · intro o nm args e hc hd
    unfold execute_tool
    rw [hc]
    simp only [Bool.not_true, Bool.false_eq_true, if_false]
    rw [hd]
  · intro database query limit p h
    unfold execute_sql_query_prepare at h
    cases hv : validate_identifier database "database" with
    | error m => rw [hv] at h; simp at h
    | ok u =>
      rw [hv] at h
      simp only [] at h
      by_cases hs : pyStartsWith (pyStrip (pyToUpper (pyStrip query))) "SELECT"
      · simp only [hs, Bool.not_true, Bool.false_eq_true, if_false] at h
        cases hfind : dangerous_keywords.find? (fun k =>
            strContains (pyStrip (pyToUpper (pyStrip query))) k) with
        | some k =>
          rw [hfind] at h
          injection h with h2
          subst h2
          exact ⟨rfl, rfl, rfl⟩
        | none => rw [hfind] at h; simp at h
      · simp only [hs, Bool.not_false, if_true] at h
        injection h with h2
        subst h2
        exact ⟨rfl, rfl, rfl⟩
  · intro o s p nm h hnm hc
    obtain ⟨v, hv⟩ := execute_tool_known_isOk o nm (p.arguments.getD []) hc
    refine ⟨MCPResult.toolsCall v, ?_⟩
    simp [mcp_endpoint, handle_request, h, hnm, hv]

/-- C5 witness: the missing database key is a failure raised inside the
execute_sql_query handler (KeyError), and the wrapped payload carries
the message, the tool name and the timestamp. -/
theorem c5_witness :
    (tools.map ToolDef.name).contains "execute_sql_query" = true ∧
    dispatchTool (constOracle []) "execute_sql_query" [] = Except.error "\x27database\x27" ∧
    execute_tool (constOracle []) "execute_sql_query" [] =
      Except.ok (PyVal.pobj
        [("error", PyVal.pstr "\x27database\x27"),
         ("tool", PyVal.pstr "execute_sql_query"),
         ("timestamp", PyVal.pstr "T")]) :=
  ⟨rfl, rfl,
   c5_error_channel_amended.1 (constOracle []) "execute_sql_query" [] "\x27database\x27" rfl rfl⟩

/-- C6 counterexample: the argument mapping with limit 999 violates the
declared preview_table_data inputSchema (maximum 10), yet execute_tool
dispatches it to the handler, which runs to completion (clamping the
limit itself) - no schema check precedes dispatch. -/
theorem c6_counterexample :
    schemaAccepts preview_table_data_schema
        [("database", PyVal.pstr "mydb"), ("table", PyVal.pstr "users"),
         ("limit", PyVal.pint 999)] = false ∧
    execute_tool (constOracle []) "preview_table_data"
        [("database", PyVal.pstr "mydb"), ("table", PyVal.pstr "users"),
         ("limit", PyVal.pint 999)] =
      Except.ok (PyVal.pobj
        [("database", PyVal.pstr "mydb"),
         ("schema", PyVal.pstr "public"),
         ("table", PyVal.pstr "users"),
         ("rows_returned", PyVal.pint 0),
         ("limit_applied", PyVal.pint 10),
         ("data", PyVal.plist []),
         ("timestamp", PyVal.pstr "T")]) :=
  ⟨rfl, rfl⟩

/-- C6 amended: no argument is checked against the declared inputSchema
before dispatch; the only pre-dispatch check on a tools/call is that the
tool name exists in the registry - a registered name is always
dispatched (and the wrapped call succeeds), an unregistered name raises
Unknown tool. -/
theorem c6_no_schema_check_amended :
    (∀ (o : DbOracle) (nm : String) (args : Args),
      (tools.map ToolDef.name).contains nm = true →
      ∃ v, execute_tool o nm args = Except.ok v) ∧
    (∀ (o : DbOracle) (nm : String) (args : Args),
      (tools.map ToolDef.name).contains nm = false →
      execute_tool o nm args = Except.error ("Unknown tool: " ++ nm)) := by
  constructor
  · intro o nm args hc
    exact execute_tool_known_isOk o nm args hc
  · intro o nm args hc
    unfold execute_tool
    rw [hc]
    rfl

/-- C6 witness: the schema-violating preview arguments are nevertheless
dispatched and succeed. -/
theorem c6_witness :
    (tools.map ToolDef.name).contains "preview_table_data" = true ∧
    ∃ v, execute_tool (constOracle []) "preview_table_data"
        [("database", PyVal.pstr "mydb"), ("table", PyVal.pstr "users"),
         ("limit", PyVal.pint 999)] = Except.ok v :=
  ⟨rfl,
   c6_no_schema_check_amended.1 (constOracle []) "preview_table_data"
     [("database", PyVal.pstr "mydb"), ("table", PyVal.pstr "users"),
      ("limit", PyVal.pint 999)] rfl⟩

/-- C7 counterexample: preview_table_data with limit 0 resolves the
limit to 0 - below the claimed lower bound 1 - because the code only
caps above with min(limit, 10) and never clamps below. -/
theorem c7_counterexample :
    execute_tool (constOracle []) "preview_table_data"
        [("database", PyVal.pstr "mydb"), ("table", PyVal.pstr "users"),
         ("limit", PyVal.pint 0)] =
      Except.ok (PyVal.pobj
        [("database", PyVal.pstr "mydb"),
         ("schema", PyVal.pstr "public"),
         ("table", PyVal.pstr "users"),
         ("rows_returned", PyVal.pint 0),
         ("limit_applied", PyVal.pint 0),
         ("data", PyVal.plist []),
         ("timestamp", PyVal.pstr "T")]) ∧
    previewResolvedLimit (some 0) = 0 ∧ ¬(1 ≤ (0 : Int)) :=
  ⟨rfl, rfl, by decide⟩

/-- C7 amended: the preview_table_data limit resolves to 5 when absent
and to min(limit, 10) when supplied - capped above at 10 (999 resolves
to 10) but passed through unclamped below 1. -/
theorem c7_preview_limit_amended :
    previewResolvedLimit none = 5 ∧
    (∀ l : Int, previewResolvedLimit (some l) = min l 10) ∧
    previewResolvedLimit (some 999) = 10 ∧
    execute_tool (constOracle []) "preview_table_data"
        [("database", PyVal.pstr "mydb"), ("table", PyVal.pstr "users"),
         ("limit", PyVal.pint 999)] =
      Except.ok (PyVal.pobj
        [("database", PyVal.pstr "mydb"),
         ("schema", PyVal.pstr "public"),
         ("table", PyVal.pstr "users"),
         ("rows_returned", PyVal.pint 0),
         ("limit_applied", PyVal.pint 10),
         ("data", PyVal.plist []),
         ("timestamp", PyVal.pstr "T")]) :=
  ⟨rfl, fun _ => rfl, rfl, rfl⟩

/-- C8 counterexample: an unknown method (resources/list) produces a
JSON-RPC error envelope with code -32602, not the claimed -32603 - the
Unknown method ValueError is caught by the endpoint's except ValueError
arm, which uses the invalid-params code for every ValueError. -/
theorem c8_counterexample :
    mcp_endpoint (constOracle []) ⟨true, none⟩ "resources/list" noParams =
      (⟨true, none⟩,
       Envelope.protocolError (-32602) "Invalid params" "Unknown method: resources/list") ∧
    ((-32602 : Int) ≠ -32603) :=
  ⟨rfl, by decide⟩

/-- C8 amended: every request whose method is none of the eight listed
methods aborts with the Unknown method ValueError, surfaced as a
JSON-RPC error envelope with code -32602 (the ValueError class), never
as a tool-level payload, and the session state is unchanged. -/
theorem c8_unknown_method_amended :
    ∀ (o : DbOracle) (s : MCPState) (p : MCPParams) (m : String),
      m ∉ (["initialize", "initialized", "tools/list", "tools/call", "ping",
            "logging/setLevel", "notifications/initialized", "prompts/list"] : List String) →
      mcp_endpoint o s m p =
        (s, Envelope.protocolError (-32602) "Invalid params" ("Unknown method: " ++ m)) := by
  intro o s p m hm
  simp only [List.mem_cons, List.not_mem_nil, or_false, not_or] at hm
  obtain ⟨h1, h2, h3, h4, h5, h6, h7, h8⟩ := hm
  simp [mcp_endpoint, handle_request, h1, h2, h3, h4, h5, h6, h7, h8]

/-- C8 witness: the amended unknown-method behavior at the concrete
method foo/bar. -/
theorem c8_witness :
    mcp_endpoint (constOracle []) ⟨false, none⟩ "foo/bar" noParams =
      (⟨false, none⟩,
       Envelope.protocolError (-32602) "Invalid params" "Unknown method: foo/bar") :=
  c8_unknown_method_amended (constOracle []) ⟨false, none⟩ noParams "foo/bar" (by decide)

/-- C9: the initialized flag is monotone - the post-state is
initialized exactly when the session already was or the method is
initialize with its protocolVersion parameter present; every method
other than initialize leaves the session state unchanged; and a
(possibly repeated) initialize with protocolVersion present leaves the
session initialized while re-recording clientInfo from the new
request. -/
theorem c9_initialized_monotone :
    ∀ (o : DbOracle) (s : MCPState) (m : String) (p : MCPParams),
      ((handle_request o s m p).fst.initialized = true ↔
        (s.initialized = true ∨ (m = "initialize" ∧ p.protocolVersion.isSome = true))) ∧
      (m ≠ "initialize" → (handle_request o s m p).fst = s) ∧
      (m = "initialize" → ∀ v, p.protocolVersion = some v →
        (handle_request o s m p).fst =
          ⟨true, some (p.clientInfo.getD (PyVal.pobj []))⟩) := by
  intro o s m p
  by_cases hm : m = "initialize"
  · subst hm
    cases hpv : p.protocolVersion with
    | none =>
      refine ⟨?_, fun h => absurd rfl h, ?_⟩
      · simp [handle_request, hpv]
      · intro _ v hv
        simp [hpv] at hv
    | some v0 =>
      refine ⟨?_, fun h => absurd rfl h, ?_⟩
      · simp [handle_request, hpv]
      · intro _ v hv
        simp [handle_request, hpv]
  · have hstate : (handle_request o s m p).fst = s := by
      unfold handle_request
      rw [if_neg hm]
      split_ifs <;> first
        | rfl
        | (cases hn : p.name with
           | none => rfl
           | some nm =>
             cases he : execute_tool o nm (p.arguments.getD []) <;> simp [he])
    refine ⟨?_, fun _ => hstate, fun h => absurd h hm⟩
    rw [hstate]
    simp [hm]

/-- C9 witness: a repeated initialize on an already-initialized session
keeps the session initialized and re-records the new clientInfo. -/
theorem c9_witness :
    (handle_request (constOracle []) ⟨true, some (PyVal.pstr "old")⟩ "initialize"
        ⟨some "2024-11-05", some (PyVal.pstr "new"), none, none, none⟩).fst =
      ⟨true, some (PyVal.pstr "new")⟩ :=
  (c9_initialized_monotone (constOracle []) ⟨true, some (PyVal.pstr "old")⟩ "initialize"
      ⟨some "2024-11-05", some (PyVal.pstr "new"), none, none, none⟩).2.2 rfl "2024-11-05" rfl

/-- C10: on an initialized session, a tools/call naming an unregistered
tool raises Unknown tool before the catch-all wrapper, so it surfaces as
a protocol-level -32602 error envelope carrying the Unknown tool
message; a tools/call naming any registered tool never takes that path -
it always comes back as a success envelope, whatever the handler
does. -/
theorem c10_unknown_tool_protocol_error :
    (∀ (o : DbOracle) (s : MCPState) (p : MCPParams) (nm : String),
      s.initialized = true → p.name = some nm →
      (tools.map ToolDef.name).contains nm = false →
      mcp_endpoint o s "tools/call" p =
        (s, Envelope.protocolError (-32602) "Invalid params" ("Unknown tool: " ++ nm))) ∧
    (∀ (o : DbOracle) (s : MCPState) (p : MCPParams) (nm : String),
      s.initialized = true → p.name = some nm →
      (tools.map ToolDef.name).contains nm = true →
      ∃ r, mcp_endpoint o s "tools/call" p = (s, Envelope.success r)) := by
  constructor
  · intro o s p nm h hnm hc
    have he : execute_tool o nm (p.arguments.getD []) =
        Except.error ("Unknown tool: " ++ nm) := by
      unfold execute_tool
      rw [hc]
      rfl
    simp [mcp_endpoint, handle_request, h, hnm, he]
  · intro o s p nm h hnm hc
    obtain ⟨v, hv⟩ := execute_tool_known_isOk o nm (p.arguments.getD []) hc
    refine ⟨MCPResult.toolsCall v, ?_⟩
    simp [mcp_endpoint, handle_request, h, hnm, hv]

/-- C10 witness: the unregistered name bogus_tool yields the protocol
error envelope and the registered name check_database_health yields a
success envelope. -/
theorem c10_witness :
    mcp_endpoint (constOracle []) ⟨true, none⟩ "tools/call"
        ⟨none, none, some "bogus_tool", none, none⟩ =
      (⟨true, none⟩,
       Envelope.protocolError (-32602) "Invalid params" "Unknown tool: bogus_tool") ∧
    ∃ r, mcp_endpoint (constOracle []) ⟨true, none⟩ "tools/call"
        ⟨none, none, some "check_database_health", none, none⟩ =
      (⟨true, none⟩, Envelope.success r) :=
  ⟨c10_unknown_tool_protocol_error.1 (constOracle []) ⟨true, none⟩
     ⟨none, none, some "bogus_tool", none, none⟩ "bogus_tool" rfl rfl rfl,
   c10_unknown_tool_protocol_error.2 (constOracle []) ⟨true, none⟩
     ⟨none, none, some "check_database_health", none, none⟩ "check_database_health" rfl rfl rfl⟩

/-- C7 witness: the amended resolution rule instantiated at the
concrete supplied limit 0. -/
theorem c7_witness : previewResolvedLimit (some 0) = min (0 : Int) 10 :=
  c7_preview_limit_amended.2.1 0
